import Mathlib

/-!
Shallow embedding of the NewICD user-space peripheral simulator core:
the MMIO trap engine (`segfault_handler`, `find_register_mapping`,
`add_register_mapping`, `add_signal_mapping`, `trigger_interrupt`), the
interrupt manager (`register_interrupt_handler`, `enable_interrupt`,
`disable_interrupt`, `handle_interrupt`), the plugin registry
(`register_plugin`, `find_plugin`), and the two exemplar plugins
(UART `uart_reset` / `uart_reg_read` / `uart_reg_write`, DMA
`dma_init` / `dma_reset` / `dma_reg_read` / `dma_monitor_tick` /
`dma_clock_tick`).

Machine integers are modelled as `Nat` with explicit `% 2^32` where u32
wrap-around matters.  `printf` logging and the monotonically increasing
message-id counter are elided; where a claim talks about a log the model
carries an explicit flag.  Thread creation (`pthread_create`) is modelled
as succeeding, and a worker thread is represented by its `running` flag
plus an explicit per-tick step function for its loop body.
-/

/-- 2^32, the modulus of u32 arithmetic. -/
def U32MOD : Nat := 4294967296

/-- u32 subtraction `a - b` with wrap-around (C unsigned semantics). -/
def u32sub (a b : Nat) : Nat := (a % U32MOD + U32MOD - b % U32MOD) % U32MOD

/-- Bitwise complement on u32 (C `~x` applied to a 32-bit value). -/
def u32not (x : Nat) : Nat := 4294967295 ^^^ (x % U32MOD)

theorem u32sub_of_le {a b : Nat} (hba : b ≤ a) (ha : a < U32MOD) :
    u32sub a b = a - b := by
  unfold u32sub
  rw [Nat.mod_eq_of_lt ha, Nat.mod_eq_of_lt (lt_of_le_of_lt hba ha)]
  have h1 : a + U32MOD - b = (a - b) + U32MOD := by omega
  rw [h1, Nat.add_mod_right, Nat.mod_eq_of_lt (by omega)]

/-! ## Interrupt manager (interrupt_manager.c)

The binding table `g_interrupt_bindings[MAX_INTERRUPTS]` together with
`g_interrupt_count` is modelled as a list of bindings (list length =
`g_interrupt_count`).  A C function pointer is modelled as a `Nat`
identifier, with `0` playing the role of `NULL`.
The header `interrupt_manager.h` is not in the tree; the capacity
constant is modelled as 32, and no theorem depends on its exact value. -/

/-- Capacity of the interrupt binding table (`MAX_INTERRUPTS`). -/
def MAX_INTERRUPTS : Nat := 32

/-- One entry of `g_interrupt_bindings`: IRQ number, handler pointer
(0 = NULL), enable flag. -/
structure InterruptBinding where
  irq_num : Nat
  handler : Nat
  enabled : Bool
  deriving Repr, DecidableEq

/-- The first-match scan used by `enable_interrupt` / `disable_interrupt`:
set the `enabled` flag of the first binding with the given IRQ number;
`none` when no binding matches. -/
def setEnabledFirst (bs : List InterruptBinding) (irq : Nat) (e : Bool) :
    Option (List InterruptBinding) :=
  match bs with
  | [] => none
  | b :: rest =>
    if b.irq_num = irq then some ({ b with enabled := e } :: rest)
    else (setEnabledFirst rest irq e).map (b :: ·)

/-- The first-match scan used by `register_interrupt_handler` for an
already-registered IRQ: replace the handler and set `enabled`. -/
def updateHandlerFirst (bs : List InterruptBinding) (irq h : Nat) :
    Option (List InterruptBinding) :=
  match bs with
  | [] => none
  | b :: rest =>
    if b.irq_num = irq then some ({ b with handler := h, enabled := true } :: rest)
    else (updateHandlerFirst rest irq h).map (b :: ·)

/-- `register_interrupt_handler(irq, handler)`: capacity check, NULL-handler
check, then update-in-place of an existing binding or append of a new
enabled binding.  Returns the C return code and the new table. -/
def register_interrupt_handler (bs : List InterruptBinding) (irq h : Nat) :
    Int × List InterruptBinding :=
  if MAX_INTERRUPTS ≤ bs.length then (-1, bs)
  else if h = 0 then (-1, bs)
  else
    match updateHandlerFirst bs irq h with
    | some bs' => (0, bs')
    | none => (0, bs ++ [⟨irq, h, true⟩])

/-- `enable_interrupt(irq)`: set the enable flag of the first matching
binding; `-1` when the IRQ is not found. -/
def enable_interrupt (bs : List InterruptBinding) (irq : Nat) :
    Int × List InterruptBinding :=
  match setEnabledFirst bs irq true with
  | some bs' => (0, bs')
  | none => (-1, bs)

/-- `disable_interrupt(irq)`: clear the enable flag of the first matching
binding; `-1` when the IRQ is not found. -/
def disable_interrupt (bs : List InterruptBinding) (irq : Nat) :
    Int × List InterruptBinding :=
  match setEnabledFirst bs irq false with
  | some bs' => (0, bs')
  | none => (-1, bs)

/-- The first-match lookup shared by `handle_interrupt` and
`get_interrupt_handler`. -/
def findBinding (bs : List InterruptBinding) (irq : Nat) :
    Option InterruptBinding :=
  bs.find? (fun b => b.irq_num = irq)

/-- `handle_interrupt(irq)`: find the first binding for `irq`; if disabled,
log and return 0 without calling the handler; if enabled with a non-NULL
handler, invoke it (the invoked handler is reported as `some h`); missing
binding or NULL handler yield `-1`.  The table itself is not modified. -/
def handle_interrupt (bs : List InterruptBinding) (irq : Nat) :
    Int × Option Nat :=
  match findBinding bs irq with
  | none => (-1, none)
  | some b =>
    if b.enabled then
      if b.handler ≠ 0 then (0, some b.handler) else (-1, none)
    else (0, none)

/-- Operations a client can perform on the interrupt manager between a
disable and a later delivery. -/
inductive IrqOp where
  | registerH (irq h : Nat)
  | enable (irq : Nat)
  | disable (irq : Nat)
  | deliver (irq : Nat)
  deriving Repr, DecidableEq

/-- State transition of one interrupt-manager operation (`deliver` reads
the table but never mutates it). -/
def irqStep (bs : List InterruptBinding) : IrqOp → List InterruptBinding
  | .registerH irq h => (register_interrupt_handler bs irq h).2
  | .enable irq => (enable_interrupt bs irq).2
  | .disable irq => (disable_interrupt bs irq).2
  | .deliver _ => bs

/-- Run a sequence of interrupt-manager operations. -/
def irqRun (bs : List InterruptBinding) (ops : List IrqOp) :
    List InterruptBinding :=
  ops.foldl irqStep bs

/-- Does this operation re-enable IRQ `i` (an `enable_interrupt(i)` or a
handler re-registration for `i`, which sets the enable flag)? -/
def reenables (op : IrqOp) (i : Nat) : Bool :=
  match op with
  | .registerH j _ => j = i
  | .enable j => j = i
  | _ => false

/-- Invariant: IRQ `i` is present in the table and its first binding is
disabled. -/
def disabledAt (bs : List InterruptBinding) (i : Nat) : Prop :=
  ∃ b, findBinding bs i = some b ∧ b.enabled = false

theorem findBinding_cons_pos {b : InterruptBinding} {rest : List InterruptBinding}
    {i : Nat} (h : b.irq_num = i) : findBinding (b :: rest) i = some b := by
  simp [findBinding, List.find?_cons_of_pos, h]

theorem findBinding_cons_neg {b : InterruptBinding} {rest : List InterruptBinding}
    {i : Nat} (h : ¬ b.irq_num = i) :
    findBinding (b :: rest) i = findBinding rest i := by
  simp [findBinding, List.find?_cons_of_neg, h]

theorem findBinding_append_of_some {bs : List InterruptBinding}
    {x : InterruptBinding} {i : Nat} {b : InterruptBinding}
    (h : findBinding bs i = some b) : findBinding (bs ++ [x]) i = some b := by
  induction bs with
  | nil => simp [findBinding] at h
  | cons a rest ih =>
    by_cases ha : a.irq_num = i
    · rw [findBinding_cons_pos ha] at h
      rw [List.cons_append, findBinding_cons_pos ha, h]
    · rw [findBinding_cons_neg ha] at h
      rw [List.cons_append, findBinding_cons_neg ha]
      exact ih h

theorem setEnabledFirst_disabledAt {bs : List InterruptBinding} {i : Nat}
    {bs' : List InterruptBinding} (h : setEnabledFirst bs i false = some bs') :
    disabledAt bs' i := by
  induction bs generalizing bs' with
  | nil => simp [setEnabledFirst] at h
  | cons b rest ih =>
    by_cases hb : b.irq_num = i
    · simp only [setEnabledFirst, if_pos hb, Option.some.injEq] at h
      subst h
      exact ⟨{ b with enabled := false }, findBinding_cons_pos hb, rfl⟩
    · simp only [setEnabledFirst, if_neg hb] at h
      cases hrec : setEnabledFirst rest i false with
      | none => rw [hrec] at h; simp at h
      | some rest' =>
        rw [hrec] at h
        simp only [Option.map_some', Option.some.injEq] at h
        subst h
        obtain ⟨c, hc, hce⟩ := ih hrec
        exact ⟨c, by rw [findBinding_cons_neg hb]; exact hc, hce⟩

theorem setEnabledFirst_find_other {bs : List InterruptBinding} {j : Nat}
    {e : Bool} {bs' : List InterruptBinding} {i : Nat} (hij : j ≠ i)
    (h : setEnabledFirst bs j e = some bs') :
    findBinding bs' i = findBinding bs i := by
  induction bs generalizing bs' with
  | nil => simp [setEnabledFirst] at h
  | cons b rest ih =>
    by_cases hb : b.irq_num = j
    · simp only [setEnabledFirst, if_pos hb, Option.some.injEq] at h
      subst h
      have hbi : ¬ b.irq_num = i := by rw [hb]; exact hij
      rw [findBinding_cons_neg (b := { b with enabled := e }) hbi,
        findBinding_cons_neg hbi]
    · simp only [setEnabledFirst, if_neg hb] at h
      cases hrec : setEnabledFirst rest j e with
      | none => rw [hrec] at h; simp at h
      | some rest' =>
        rw [hrec] at h
        simp only [Option.map_some', Option.some.injEq] at h
        subst h
        by_cases hbi : b.irq_num = i
        · rw [findBinding_cons_pos hbi, findBinding_cons_pos hbi]
        · rw [findBinding_cons_neg hbi, findBinding_cons_neg hbi]
          exact ih hrec

theorem updateHandlerFirst_find_other {bs : List InterruptBinding} {j h : Nat}
    {bs' : List InterruptBinding} {i : Nat} (hij : j ≠ i)
    (hu : updateHandlerFirst bs j h = some bs') :
    findBinding bs' i = findBinding bs i := by
  induction bs generalizing bs' with
  | nil => simp [updateHandlerFirst] at hu
  | cons b rest ih =>
    by_cases hb : b.irq_num = j
    · simp only [updateHandlerFirst, if_pos hb, Option.some.injEq] at hu
      subst hu
      have hbi : ¬ b.irq_num = i := by rw [hb]; exact hij
      rw [findBinding_cons_neg (b := { b with handler := h, enabled := true }) hbi,
        findBinding_cons_neg hbi]
    · simp only [updateHandlerFirst, if_neg hb] at hu
      cases hrec : updateHandlerFirst rest j h with
      | none => rw [hrec] at hu; simp at hu
      | some rest' =>
        rw [hrec] at hu
        simp only [Option.map_some', Option.some.injEq] at hu
        subst hu
        by_cases hbi : b.irq_num = i
        · rw [findBinding_cons_pos hbi, findBinding_cons_pos hbi]
        · rw [findBinding_cons_neg hbi, findBinding_cons_neg hbi]
          exact ih hrec

theorem disabledAt_step {bs : List InterruptBinding} {i : Nat} {op : IrqOp}
    (hd : disabledAt bs i) (hop : reenables op i = false) :
    disabledAt (irqStep bs op) i := by
  obtain ⟨b, hb, hbe⟩ := hd
  cases op with
  | deliver j => exact ⟨b, hb, hbe⟩
  | enable j =>
    have hij : j ≠ i := by
      intro hji; subst hji; simp [reenables] at hop
    simp only [irqStep, enable_interrupt]
    cases hrec : setEnabledFirst bs j true with
    | none => exact ⟨b, hb, hbe⟩
    | some bs' =>
      exact ⟨b, by rw [setEnabledFirst_find_other hij hrec]; exact hb, hbe⟩
  | disable j =>
    simp only [irqStep, disable_interrupt]
    by_cases hij : j = i
    · subst hij
      cases hrec : setEnabledFirst bs j false with
      | none => exact ⟨b, hb, hbe⟩
      | some bs' => exact setEnabledFirst_disabledAt hrec
    · cases hrec : setEnabledFirst bs j false with
      | none => exact ⟨b, hb, hbe⟩
      | some bs' =>
        exact ⟨b, by rw [setEnabledFirst_find_other hij hrec]; exact hb, hbe⟩
  | registerH j h =>
    have hij : j ≠ i := by
      intro hji; subst hji; simp [reenables] at hop
    simp only [irqStep, register_interrupt_handler]
    by_cases hcap : MAX_INTERRUPTS ≤ bs.length
    · rw [if_pos hcap]; exact ⟨b, hb, hbe⟩
    · rw [if_neg hcap]
      by_cases hh : h = 0
      · rw [if_pos hh]; exact ⟨b, hb, hbe⟩
      · rw [if_neg hh]
        cases hrec : updateHandlerFirst bs j h with
        | none => exact ⟨b, findBinding_append_of_some hb, hbe⟩
        | some bs' =>
          exact ⟨b, by rw [updateHandlerFirst_find_other hij hrec]; exact hb, hbe⟩

theorem disabledAt_run {bs : List InterruptBinding} {i : Nat}
    {ops : List IrqOp} (hd : disabledAt bs i)
    (hops : ∀ op ∈ ops, reenables op i = false) :
    disabledAt (irqRun bs ops) i := by
  induction ops generalizing bs with
  | nil => exact hd
  | cons op rest ih =>
    exact ih (disabledAt_step hd (hops op (List.mem_cons_self op rest)))
      (fun o ho => hops o (List.mem_cons_of_mem op ho))

theorem handle_interrupt_of_disabledAt {bs : List InterruptBinding} {i : Nat}
    (hd : disabledAt bs i) : handle_interrupt bs i = (0, none) := by
  obtain ⟨b, hb, hbe⟩ := hd
  simp [handle_interrupt, hb, hbe]

theorem disable_interrupt_disabledAt {bs : List InterruptBinding} {i : Nat}
    (h : (disable_interrupt bs i).1 = 0) :
    disabledAt (disable_interrupt bs i).2 i := by
  cases hrec : setEnabledFirst bs i false with
  | none =>
    exfalso
    unfold disable_interrupt at h
    rw [hrec] at h
    have h2 : (-1 : Int) = 0 := h
    exact absurd h2 (by decide)
  | some bs' =>
    unfold disable_interrupt
    rw [hrec]
    exact setEnabledFirst_disabledAt hrec

/-- C3: after a successful `disable_interrupt(i)`, any sequence of
interrupt-manager operations that contains no `enable_interrupt(i)` and no
handler re-registration for `i` leaves IRQ `i` masked: a delivery
(`handle_interrupt(i)`) at any such point returns 0 (the logged
disabled-IRQ path) and invokes no handler. -/
theorem C3_disable_masks_delivery (bs : List InterruptBinding) (i : Nat)
    (hdis : (disable_interrupt bs i).1 = 0) (ops : List IrqOp)
    (hops : ∀ op ∈ ops, reenables op i = false) :
    handle_interrupt (irqRun (disable_interrupt bs i).2 ops) i = (0, none) :=
  handle_interrupt_of_disabledAt
    (disabledAt_run (disable_interrupt_disabledAt hdis) hops)

/-- Witness for C3 at a concrete table and operation sequence. -/
theorem C3_disable_masks_delivery_witness :
    (disable_interrupt [⟨5, 7, true⟩] 5).1 = 0 ∧
    handle_interrupt (irqRun (disable_interrupt [⟨5, 7, true⟩] 5).2
      [.deliver 5, .registerH 6 2, .disable 5, .enable 6, .deliver 5]) 5 =
      (0, none) :=
  ⟨by decide, C3_disable_masks_delivery [⟨5, 7, true⟩] 5 (by decide)
    [.deliver 5, .registerH 6 2, .disable 5, .enable 6, .deliver 5] (by decide)⟩

theorem find?_append_of_some {α : Type} {p : α → Bool} {l1 l2 : List α} {a : α}
    (h : l1.find? p = some a) : (l1 ++ l2).find? p = some a := by
  induction l1 with
  | nil => simp [List.find?] at h
  | cons x xs ih =>
    cases hx : p x with
    | true =>
      rw [List.find?_cons_of_pos _ hx] at h
      rw [List.cons_append, List.find?_cons_of_pos _ hx]
      exact h
    | false =>
      have hx' : ¬ p x = true := by simp [hx]
      rw [List.find?_cons_of_neg _ hx'] at h
      rw [List.cons_append, List.find?_cons_of_neg _ hx']
      exact ih h

/-! ## Register mappings and signal mappings (sim_interface.c)

The global arrays `g_reg_mappings` / `g_signal_mappings` with their
counters are modelled as lists.  The `mmap` guard-region allocation is
modelled as succeeding (its failure path only matters when the host is
out of memory); the `mapped_addr` field carries no information the claims
need and is elided. -/

/-- Capacity `MAX_REG_MAPPINGS` of the register mapping table. -/
def MAX_REG_MAPPINGS : Nat := 32

/-- Capacity `MAX_SIGNAL_MAPPINGS` of the signal mapping table. -/
def MAX_SIGNAL_MAPPINGS : Nat := 16

/-- One `reg_mapping_t` entry: `[start_addr, end_addr)` owned by `module`. -/
structure RegMapping where
  start_addr : Nat
  end_addr : Nat
  module : String
  deriving Repr, DecidableEq

/-- One `signal_mapping_t` entry. -/
structure SignalMapping where
  signal_num : Int
  module : String
  irq_num : Nat
  deriving Repr, DecidableEq

/-- `add_register_mapping(start, end, module)`: reject only when the table
is full, otherwise append the new range unconditionally (the C code
performs no overlap check against existing ranges). -/
def add_register_mapping (ms : List RegMapping) (start_addr end_addr : Nat)
    (module : String) : Int × List RegMapping :=
  if MAX_REG_MAPPINGS ≤ ms.length then (-1, ms)
  else (0, ms ++ [⟨start_addr, end_addr, module⟩])

/-- `find_register_mapping(addr)`: first entry whose range contains `addr`
(the C condition `addr >= start && addr < start + (end - start)`). -/
def find_register_mapping (ms : List RegMapping) (addr : Nat) :
    Option RegMapping :=
  ms.find? (fun m =>
    m.start_addr ≤ addr ∧ addr < m.start_addr + (m.end_addr - m.start_addr))

/-- `add_signal_mapping(signal, module, irq)`: reject only when the table
is full, otherwise append unconditionally (the C code performs no
duplicate-signal check and never replaces an existing binding). -/
def add_signal_mapping (ms : List SignalMapping) (signal_num : Int)
    (module : String) (irq_num : Nat) : Int × List SignalMapping :=
  if MAX_SIGNAL_MAPPINGS ≤ ms.length then (-1, ms)
  else (0, ms ++ [⟨signal_num, module, irq_num⟩])

/-- The signal → IRQ resolution performed by `interrupt_signal_handler`:
the first table entry with the delivered signal number wins. -/
def signal_resolve_irq (ms : List SignalMapping) (sig : Int) : Option Nat :=
  (ms.find? (fun m => m.signal_num = sig)).map (·.irq_num)

/-- `trigger_interrupt(module, irq)`: find the first binding matching both
module name and IRQ number and raise its signal (returned as `some sig`);
`-1` with no side effect when absent. -/
def trigger_interrupt (ms : List SignalMapping) (module : String)
    (irq : Nat) : Int × Option Int :=
  match ms.find? (fun m => m.module = module ∧ m.irq_num = irq) with
  | some m => (0, some m.signal_num)
  | none => (-1, none)

/-- C4 counterexample: from an empty table, `add_mapping(0x1000..0x2000,
"a")` succeeds and the overlapping `add_mapping(0x1800..0x2800, "b")`
ALSO succeeds (returns 0) and appends, leaving both overlapping ranges in
the table — the claimed ConfigurationError and unchanged table do not
occur. -/
theorem C4_overlap_counterexample :
    (add_register_mapping [] 0x1000 0x2000 "a").1 = 0 ∧
    (add_register_mapping (add_register_mapping [] 0x1000 0x2000 "a").2
      0x1800 0x2800 "b").1 = 0 ∧
    (add_register_mapping (add_register_mapping [] 0x1000 0x2000 "a").2
      0x1800 0x2800 "b").2 =
      [⟨0x1000, 0x2000, "a"⟩, ⟨0x1800, 0x2800, "b"⟩] :=
  ⟨rfl, rfl, rfl⟩

/-- C4 (amended): `add_register_mapping` performs no overlap check; every
call with the table below its 32-entry capacity returns success and
appends the new range verbatim, overlapping or not. -/
theorem C4_add_mapping_no_overlap_check (ms : List RegMapping)
    (start_addr end_addr : Nat) (module : String)
    (hlen : ms.length < MAX_REG_MAPPINGS) :
    add_register_mapping ms start_addr end_addr module =
      (0, ms ++ [⟨start_addr, end_addr, module⟩]) := by
  unfold add_register_mapping
  rw [if_neg (by omega)]

/-- Witness for the amended C4 at a concrete table. -/
theorem C4_add_mapping_no_overlap_check_witness :
    [(⟨0x1000, 0x2000, "a"⟩ : RegMapping)].length < MAX_REG_MAPPINGS ∧
    add_register_mapping [⟨0x1000, 0x2000, "a"⟩] 0x1800 0x2800 "b" =
      (0, [⟨0x1000, 0x2000, "a"⟩, ⟨0x1800, 0x2800, "b"⟩]) :=
  ⟨by decide, C4_add_mapping_no_overlap_check [⟨0x1000, 0x2000, "a"⟩]
    0x1800 0x2800 "b" (by decide)⟩

/-! ## Plugin registry (plugin_manager.c) -/

/-- Capacity `MAX_PLUGINS` of the plugin registry. -/
def MAX_PLUGINS : Nat := 32

/-- A registered plugin as the registry sees it: its name and the return
value of its `init` callback (`none` models a NULL `init` pointer). -/
structure PluginEntry where
  name : String
  initResult : Option Int
  deriving Repr, DecidableEq

/-- `register_plugin(plugin)`: reject only when the registry is full;
otherwise append the plugin (before `init` runs) and return its `init`
result, or 0 when it has no `init`.  No name-uniqueness check is
performed. -/
def register_plugin (ps : List PluginEntry) (p : PluginEntry) :
    Int × List PluginEntry :=
  if MAX_PLUGINS ≤ ps.length then (-1, ps)
  else (p.initResult.getD 0, ps ++ [p])

/-- `find_plugin(name)`: first registry entry with that name. -/
def find_plugin (ps : List PluginEntry) (name : String) :
    Option PluginEntry :=
  ps.find? (fun q => q.name = name)

/-- C5 counterexample: registering a second plugin named "uart0" into a
registry already holding a "uart0" succeeds (returns 0) and appends,
leaving two entries with the same name — the registry does not keep
plugin names unique. -/
theorem C5_duplicate_name_counterexample :
    (register_plugin [] ⟨"uart0", none⟩).1 = 0 ∧
    (register_plugin [⟨"uart0", none⟩] ⟨"uart0", none⟩).1 = 0 ∧
    (register_plugin [⟨"uart0", none⟩] ⟨"uart0", none⟩).2 =
      [⟨"uart0", none⟩, ⟨"uart0", none⟩] ∧
    ¬ ((register_plugin [⟨"uart0", none⟩] ⟨"uart0", none⟩).2.map
        PluginEntry.name).Nodup := by
  refine ⟨rfl, rfl, rfl, ?_⟩
  decide

/-- C5 (amended): `register_plugin` checks only the registry capacity; a
plugin whose name duplicates an already-registered one is appended all
the same, and `find_plugin` resolves a name to the earliest registered
entry. -/
theorem C5_register_plugin_no_name_check (ps : List PluginEntry)
    (p : PluginEntry) (hlen : ps.length < MAX_PLUGINS) :
    register_plugin ps p = (p.initResult.getD 0, ps ++ [p]) ∧
    (∀ q, find_plugin ps p.name = some q →
      find_plugin (register_plugin ps p).2 p.name = some q) := by
  constructor
  · unfold register_plugin
    rw [if_neg (by omega)]
  · intro q hq
    unfold register_plugin
    rw [if_neg (by omega)]
    exact find?_append_of_some hq

/-- Witness for the amended C5 at a concrete registry. -/
theorem C5_register_plugin_no_name_check_witness :
    [(⟨"uart0", none⟩ : PluginEntry)].length < MAX_PLUGINS ∧
    register_plugin [⟨"uart0", none⟩] ⟨"uart0", some 0⟩ =
      (0, [⟨"uart0", none⟩, ⟨"uart0", some 0⟩]) ∧
    find_plugin (register_plugin [⟨"uart0", none⟩] ⟨"uart0", some 0⟩).2
      "uart0" = some ⟨"uart0", none⟩ :=
  ⟨by decide,
    (C5_register_plugin_no_name_check [⟨"uart0", none⟩] ⟨"uart0", some 0⟩
      (by decide)).1,
    (C5_register_plugin_no_name_check [⟨"uart0", none⟩] ⟨"uart0", some 0⟩
      (by decide)).2 ⟨"uart0", none⟩ (by decide)⟩

/-- C6 counterexample: binding signal 34 twice does not replace the first
binding — the second call also succeeds and appends, leaving two entries
with signal number 34, so signal numbers are not unique in the table. -/
theorem C6_duplicate_signal_counterexample :
    (add_signal_mapping [] 34 "uart0" 5).1 = 0 ∧
    (add_signal_mapping (add_signal_mapping [] 34 "uart0" 5).2
      34 "dma0" 7).1 = 0 ∧
    (add_signal_mapping (add_signal_mapping [] 34 "uart0" 5).2
      34 "dma0" 7).2 = [⟨34, "uart0", 5⟩, ⟨34, "dma0", 7⟩] ∧
    ¬ ((add_signal_mapping (add_signal_mapping [] 34 "uart0" 5).2
        34 "dma0" 7).2.map SignalMapping.signal_num).Nodup := by
  refine ⟨rfl, rfl, rfl, ?_⟩
  decide

/-- C6 (amended): `add_signal_mapping` for an already-bound signal number
does not replace the existing binding; it appends a second entry (only
the capacity is checked), so duplicate signal numbers can accumulate, and
the signal handler keeps resolving through the first (earliest) entry. -/
theorem C6_add_signal_mapping_appends (ms : List SignalMapping)
    (signal_num : Int) (module : String) (irq_num : Nat)
    (hlen : ms.length < MAX_SIGNAL_MAPPINGS) :
    add_signal_mapping ms signal_num module irq_num =
      (0, ms ++ [⟨signal_num, module, irq_num⟩]) ∧
    (∀ i, signal_resolve_irq ms signal_num = some i →
      signal_resolve_irq (add_signal_mapping ms signal_num module irq_num).2
        signal_num = some i) := by
  constructor
  · unfold add_signal_mapping
    rw [if_neg (by omega)]
  · intro i hi
    unfold add_signal_mapping
    rw [if_neg (by omega)]
    unfold signal_resolve_irq at hi ⊢
    cases hfind : ms.find? (fun m => m.signal_num = signal_num) with
    | none => rw [hfind] at hi; simp at hi
    | some m =>
      rw [hfind] at hi
      rw [find?_append_of_some hfind]
      exact hi

/-- Witness for the amended C6 at a concrete table. -/
theorem C6_add_signal_mapping_appends_witness :
    [(⟨34, "uart0", 5⟩ : SignalMapping)].length < MAX_SIGNAL_MAPPINGS ∧
    add_signal_mapping [⟨34, "uart0", 5⟩] 34 "dma0" 7 =
      (0, [⟨34, "uart0", 5⟩, ⟨34, "dma0", 7⟩]) ∧
    signal_resolve_irq (add_signal_mapping [⟨34, "uart0", 5⟩] 34 "dma0" 7).2
      34 = some 5 :=
  ⟨by decide,
    (C6_add_signal_mapping_appends [⟨34, "uart0", 5⟩] 34 "dma0" 7
      (by decide)).1,
    (C6_add_signal_mapping_appends [⟨34, "uart0", 5⟩] 34 "dma0" 7
      (by decide)).2 5 (by decide)⟩

/-! ## DMA plugin (dma_plugin.c)

`dma_private_t` is modelled as `DmaState`; the 16-entry channel array as a
function on indices (only 0..15 are ever used).  The monitor thread's
per-second loop body is modelled as one `dma_monitor_tick` step returning
the new state and the `(module, irq)` pairs passed to `trigger_interrupt`,
in loop order. -/

/-- `DMA_BASE_ADDR` from register_map.h (`DMA0_BASE` = 0x40006000). -/
def DMA_BASE_ADDR : Nat := 0x40006000

/-- `DMA_CH_OFFSET` from register_map.h. -/
def DMA_CH_OFFSET : Nat := 0x20

/-- One `dma_channel_regs_t` (register_map.h). -/
structure DmaChannel where
  ctrl : Nat
  status : Nat
  src_addr : Nat
  dst_addr : Nat
  size : Nat
  config : Nat
  current_src : Nat
  current_dst : Nat
  deriving Repr, DecidableEq

/-- All-zero channel (the `memset` state). -/
def dmaChannelZero : DmaChannel := ⟨0, 0, 0, 0, 0, 0, 0, 0⟩

/-- `dma_private_t`. -/
structure DmaState where
  channels : Nat → DmaChannel
  enabled : Bool
  transfer_count : Nat
  simulation_running : Bool
  dma_global_ctrl : Nat
  dma_global_status : Nat
  dma_int_status : Nat
  instance_id : Nat
  instance_name : String
  base_addr : Nat
  channel_base_addr : Nat

/-- `reset_action_t`. -/
inductive ResetAction where
  | assert
  | deassert
  deriving Repr, DecidableEq

/-- One channel's share of the monitor-thread loop body: an enabled
channel with size > 0 transfers `size > 512 ? 512 : size` bytes; on
reaching 0 the enable bit is cleared and the done bit (0x02) set.  The
Bool reports whether the transfer completed on this tick (which is when
the C code triggers the interrupt — unconditionally). -/
def dma_channel_tick (c : DmaChannel) : DmaChannel × Bool :=
  if c.ctrl &&& 1 ≠ 0 ∧ 0 < c.size then
    let amt := if 512 < c.size then 512 else c.size
    let sz := c.size - amt
    if sz = 0 then
      ({ c with size := 0, ctrl := c.ctrl &&& u32not 1, status := c.status ||| 2 },
        true)
    else ({ c with size := sz }, false)
  else (c, false)

/-- One full pass of `dma_monitor_thread`'s while-loop body over the 16
channels: each channel steps by `dma_channel_tick`; every completing
channel sets its bit in `dma_int_status` and triggers
`trigger_interrupt(instance_name, 10 + ch)` (returned in loop order). -/
def dma_monitor_tick (s : DmaState) : DmaState × List (String × Nat) :=
  let completed := (List.range 16).filter (fun i => (dma_channel_tick (s.channels i)).2)
  ({ s with
      channels := fun i => (dma_channel_tick (s.channels i)).1,
      dma_int_status :=
        completed.foldl (fun acc i => acc ||| (1 <<< i)) s.dma_int_status },
    completed.map (fun i => (s.instance_name, 10 + i)))

/-- One channel's share of `dma_clock(CLOCK_TICK)`: size decrements by 1;
on completion the interrupt is triggered only when the config
interrupt-enable bit (0x100) is set. -/
def dma_clock_channel_tick (c : DmaChannel) : DmaChannel × Bool :=
  if c.ctrl &&& 1 ≠ 0 ∧ 0 < c.size then
    let sz := c.size - 1
    if sz = 0 then
      ({ c with size := 0, ctrl := c.ctrl &&& u32not 1, status := c.status ||| 2 },
        c.config &&& 0x100 != 0)
    else ({ c with size := sz }, false)
  else (c, false)

/-- `dma_clock` with `CLOCK_TICK`: like the monitor tick but transferring
1 byte per tick, checking the config interrupt-enable bit, triggering on
the legacy module name "dma", and leaving `dma_int_status` alone. -/
def dma_clock_tick (s : DmaState) : DmaState × List (String × Nat) :=
  let completed := (List.range 16).filter
    (fun i => (dma_clock_channel_tick (s.channels i)).2)
  ({ s with channels := fun i => (dma_clock_channel_tick (s.channels i)).1 },
    completed.map (fun i => ("dma", 10 + i)))

/-- `dma_reset`: on `RESET_ASSERT`, stop the monitor thread
(`simulation_running := false`, join) and zero the channels, the enable
flag, the transfer count and the three global registers; `RESET_DEASSERT`
does nothing.  Returns 0 in both cases. -/
def dma_reset (s : DmaState) (action : ResetAction) : Int × DmaState :=
  match action with
  | .assert =>
    (0, { s with
            simulation_running := false,
            channels := fun _ => dmaChannelZero,
            enabled := false,
            transfer_count := 0,
            dma_global_ctrl := 0,
            dma_global_status := 0,
            dma_int_status := 0 })
  | .deassert => (0, s)

/-- The channel-register switch of `dma_reg_read` on a relative offset
within one channel's 0x20-byte window. -/
def dma_channel_reg_read (c : DmaChannel) (offset : Nat) : Nat :=
  if offset = 0x00 then c.ctrl
  else if offset = 0x04 then c.status
  else if offset = 0x08 then c.src_addr
  else if offset = 0x0C then c.dst_addr
  else if offset = 0x10 then c.size
  else if offset = 0x14 then c.config
  else 0

/-- The channel scan of `dma_reg_read` / `dma_reg_write`: first channel
`ch < 16` whose window `[channel_base + ch*0x20, +0x20)` contains the
address, with the relative offset. -/
def dma_find_channel (s : DmaState) (addr : Nat) : Option (Nat × Nat) :=
  (List.range 16).findSome? (fun ch =>
    let chBase := s.channel_base_addr + ch * DMA_CH_OFFSET
    if chBase ≤ addr ∧ addr < chBase + DMA_CH_OFFSET then
      some (ch, addr - chBase)
    else none)

/-- `dma_reg_read`: global-control at base+0x30, global-status and (dead
branch, same address) interrupt-status at base+0x00, then the channel
windows; anything else reads 0.  Reading never mutates the state. -/
def dma_reg_read (s : DmaState) (addr : Nat) : Nat :=
  if addr = s.base_addr + 0x30 then s.dma_global_ctrl
  else if addr = s.base_addr then s.dma_global_status
  else if addr = s.base_addr then s.dma_int_status
  else
    match dma_find_channel s addr with
    | some p => dma_channel_reg_read (s.channels p.1) p.2
    | none => 0

/-- `atoi` on a digit-prefixed string (the plugin only ever calls it on a
pointer left at the first digit of the name). -/
def atoiDigits : List Char → Nat → Nat
  | [], acc => acc
  | c :: cs, acc => if c.isDigit then atoiDigits cs (acc * 10 + (c.toNat - 48)) else acc

/-- The instance-id extraction in `dma_init`: skip to the first digit of
the plugin name and `atoi` from there; 0 when there is no digit. -/
def parse_instance_id (name : String) : Nat :=
  match name.toList.dropWhile (fun c => !c.isDigit) with
  | [] => 0
  | cs => atoiDigits cs 0

/-- `dma_init`: zero the private state, set `simulation_running` and
start the monitor thread, derive the instance id and base addresses from
the plugin name, and pre-arm the test transfer on channel 0
(src 0x20000000, dst 0x40001000, size 17, config 0x100, ctrl 0x01). -/
def dma_init (name : String) : DmaState :=
  let id := parse_instance_id name
  let base := DMA_BASE_ADDR + id * 0x1000
  { channels := fun i =>
      if i = 0 then ⟨0x01, 0x00, 0x20000000, 0x40001000, 17, 0x100, 0, 0⟩
      else dmaChannelZero,
    enabled := false,
    transfer_count := 0,
    simulation_running := true,
    dma_global_ctrl := 0,
    dma_global_status := 0,
    dma_int_status := 0,
    instance_id := id,
    instance_name := name.take 31,
    base_addr := base,
    channel_base_addr := base + 0x100 }

theorem dma_channel_tick_complete {c : DmaChannel} (hen : c.ctrl &&& 1 ≠ 0)
    (hsz : 0 < c.size) (h512 : c.size ≤ 512) :
    dma_channel_tick c =
      ({ c with
          size := 0,
          ctrl := c.ctrl &&& u32not 1,
          status := c.status ||| 2 }, true) := by
  simp only [dma_channel_tick]
  rw [if_pos (And.intro hen hsz), if_neg (show ¬ 512 < c.size by omega),
    Nat.sub_self, if_pos rfl]

theorem dma_channel_tick_ongoing {c : DmaChannel} (hen : c.ctrl &&& 1 ≠ 0)
    (h512 : 512 < c.size) :
    dma_channel_tick c = ({ c with size := c.size - 512 }, false) := by
  simp only [dma_channel_tick]
  rw [if_pos (And.intro hen (by omega)), if_pos h512,
    if_neg (show ¬ c.size - 512 = 0 by omega)]

/-- C2 counterexample state: channel 0 enabled with `size = 1` and
`config = 0` (interrupt-enable bit clear); the other channels are idle. -/
def dmaExState : DmaState :=
  { channels := fun i =>
      if i = 0 then ⟨1, 0, 0x20000000, 0x40001000, 1, 0, 0, 0⟩
      else dmaChannelZero,
    enabled := true,
    transfer_count := 0,
    simulation_running := true,
    dma_global_ctrl := 1,
    dma_global_status := 0,
    dma_int_status := 0,
    instance_id := 0,
    instance_name := "dma0",
    base_addr := DMA_BASE_ADDR,
    channel_base_addr := DMA_BASE_ADDR + 0x100 }

/-- C2 counterexample: channel 0 of `dmaExState` has the config
interrupt-enable bit (0x100) CLEAR, yet the worker tick that completes
its transfer still triggers `trigger_interrupt("dma0", 10)` — the
claimed "if and only if config has 0x100" direction fails (the monitor
thread never consults `config`). -/
theorem C2_unconditional_irq_counterexample :
    (dmaExState.channels 0).config &&& 0x100 = 0 ∧
    (dmaExState.channels 0).ctrl &&& 1 = 1 ∧
    (dmaExState.channels 0).size = 1 ∧
    (dma_monitor_tick dmaExState).2 = [("dma0", 10)] :=
  ⟨rfl, rfl, rfl, rfl⟩

/-- C2 (amended): one worker tick decreases an enabled channel's size by
min(size, 512); on the tick where the size reaches 0 it clears the enable
bit and sets the done bit (0x02) in status, and it triggers IRQ
`10 + ch` on this instance UNCONDITIONALLY — the trigger happens exactly
when the transfer completes, regardless of the channel config's
interrupt-enable bit (that check only exists in the `dma_clock` tick
path). -/
theorem C2_dma_worker_tick (s : DmaState) (ch : Nat) (hch : ch < 16)
    (hen : (s.channels ch).ctrl &&& 1 ≠ 0) (hsz : 0 < (s.channels ch).size) :
    ((dma_monitor_tick s).1.channels ch).size
        = (s.channels ch).size - min (s.channels ch).size 512
    ∧ ((s.channels ch).size ≤ 512 →
        ((dma_monitor_tick s).1.channels ch).ctrl
            = (s.channels ch).ctrl &&& u32not 1
        ∧ ((dma_monitor_tick s).1.channels ch).status
            = (s.channels ch).status ||| 2)
    ∧ ((s.instance_name, 10 + ch) ∈ (dma_monitor_tick s).2
        ↔ (s.channels ch).size ≤ 512) := by
  refine ⟨?_, ?_, ?_⟩
  · show ((dma_channel_tick (s.channels ch)).1).size = _
    by_cases h512 : (s.channels ch).size ≤ 512
    · rw [dma_channel_tick_complete hen hsz h512]
      show 0 = _
      omega
    · rw [dma_channel_tick_ongoing hen (by omega)]
      show (s.channels ch).size - 512 = _
      omega
  · intro h512
    constructor
    · show ((dma_channel_tick (s.channels ch)).1).ctrl = _
      rw [dma_channel_tick_complete hen hsz h512]
    · show ((dma_channel_tick (s.channels ch)).1).status = _
      rw [dma_channel_tick_complete hen hsz h512]
  · rw [show (dma_monitor_tick s).2
        = ((List.range 16).filter
            (fun i => (dma_channel_tick (s.channels i)).2)).map
            (fun i => (s.instance_name, 10 + i)) from rfl]
    rw [List.mem_map]
    constructor
    · rintro ⟨i, hi, heq⟩
      have hieq : i = ch := by
        have h2 := congrArg Prod.snd heq
        simpa using h2
      subst hieq
      have hpred := (List.mem_filter.mp hi).2
      by_contra h512
      rw [dma_channel_tick_ongoing hen (by omega)] at hpred
      simp at hpred
    · intro h512
      refine ⟨ch, ?_, rfl⟩
      rw [List.mem_filter]
      refine ⟨List.mem_range.mpr hch, ?_⟩
      rw [dma_channel_tick_complete hen hsz h512]

/-- Witness for the amended C2 at the concrete state `dmaExState`. -/
theorem C2_dma_worker_tick_witness :
    (0 : Nat) < 16 ∧ (dmaExState.channels 0).ctrl &&& 1 ≠ 0 ∧
    0 < (dmaExState.channels 0).size ∧
    (((dma_monitor_tick dmaExState).1.channels 0).size
        = (dmaExState.channels 0).size - min (dmaExState.channels 0).size 512
    ∧ ((dmaExState.channels 0).size ≤ 512 →
        ((dma_monitor_tick dmaExState).1.channels 0).ctrl
            = (dmaExState.channels 0).ctrl &&& u32not 1
        ∧ ((dma_monitor_tick dmaExState).1.channels 0).status
            = (dmaExState.channels 0).status ||| 2)
    ∧ ((dmaExState.instance_name, 10 + 0) ∈ (dma_monitor_tick dmaExState).2
        ↔ (dmaExState.channels 0).size ≤ 512)) :=
  ⟨by decide, by decide, by decide,
    C2_dma_worker_tick dmaExState 0 (by decide) (by decide) (by decide)⟩

/-- C9: `dma_init` (run by `register_plugin`) unconditionally pre-arms
channel 0 with src 0x20000000, dst 0x40001000, size 17, config 0x100
(interrupt enable) and ctrl 0x01 (enabled), and starts the monitor
thread immediately (`simulation_running = true`); the first worker tick
then already completes the 17-byte transfer (size 17 ≤ 512), sets the
done bit, clears enable, and triggers IRQ 10 on this instance with no
driver action at all. -/
theorem C9_dma_init_prearms_channel0 (name : String) :
    (dma_init name).channels 0 = ⟨0x01, 0x00, 0x20000000, 0x40001000, 17, 0x100, 0, 0⟩
    ∧ (dma_init name).simulation_running = true
    ∧ (dma_monitor_tick (dma_init name)).1.channels 0
        = ⟨0x00, 0x02, 0x20000000, 0x40001000, 0, 0x100, 0, 0⟩
    ∧ (dma_monitor_tick (dma_init name)).2 = [(name.take 31, 10)] := by
  have hch : (dma_init name).channels
      = fun i =>
          if i = 0 then ⟨0x01, 0x00, 0x20000000, 0x40001000, 17, 0x100, 0, 0⟩
          else dmaChannelZero := rfl
  have hfilt : (List.range 16).filter
      (fun i => (dma_channel_tick
        (if i = 0 then (⟨0x01, 0x00, 0x20000000, 0x40001000, 17, 0x100, 0, 0⟩ : DmaChannel)
         else dmaChannelZero)).2) = [0] := by decide
  refine ⟨rfl, rfl, ?_, ?_⟩
  · show (dma_channel_tick ((dma_init name).channels 0)).1 = _
    rw [hch]
    decide
  · show ((List.range 16).filter
        (fun i => (dma_channel_tick ((dma_init name).channels i)).2)).map
        (fun i => ((dma_init name).instance_name, 10 + i)) = _
    rw [hch, hfilt]
    simp [dma_init]

/-! ## UART plugin (the PL011-style uart_plugin.c)

`uart_private_t` as `UartState`; the 256-byte RX FIFO as its backing
function plus head/tail indices.  Note that `UART_TX_READY` /
`UART_RX_READY` are the register_map.h masks `~UART_FR_TXFF` /
`~UART_FR_RXFE` (u32 complements of single bits). -/

/-- `UART_BASE` (= `UART0_BASE` = 0x40002000). -/
def UART_BASE : Nat := 0x40002000

/-- `UART_FR_TXFF` (bit 5). -/
def UART_FR_TXFF : Nat := 0x20

/-- `UART_FR_RXFE` (bit 4). -/
def UART_FR_RXFE : Nat := 0x10

/-- `UART_TX_READY = ~UART_FR_TXFF` as u32 (0xFFFFFFDF). -/
def UART_TX_READY : Nat := u32not UART_FR_TXFF

/-- `UART_RX_READY = ~UART_FR_RXFE` as u32 (0xFFFFFFEF). -/
def UART_RX_READY : Nat := u32not UART_FR_RXFE

/-- `uart_private_t`. -/
structure UartState where
  tx_reg : Nat
  rx_reg : Nat
  status_reg : Nat
  ctrl_reg : Nat
  dma_ctrl_reg : Nat
  tx_ready : Bool
  rx_ready : Bool
  rx_buffer : Nat → Nat
  rx_head : Nat
  rx_tail : Nat
  interrupt_enabled : Bool
  simulation_running : Bool
  instance_id : Nat
  instance_name : String
  base_addr : Nat

/-- `uart_reset`: on `RESET_ASSERT`, zero the data/control/DMA-control
registers and the FIFO indices, set the status register to
`UART_TX_READY` and the ready flags; the monitor thread is NOT stopped
(`simulation_running` and `interrupt_enabled` are left untouched).
`RESET_DEASSERT` only logs.  Returns 0. -/
def uart_reset (s : UartState) (action : ResetAction) : Int × UartState :=
  match action with
  | .assert =>
    (0, { s with
            tx_reg := 0,
            rx_reg := 0,
            status_reg := UART_TX_READY,
            ctrl_reg := 0,
            dma_ctrl_reg := 0,
            tx_ready := true,
            rx_ready := false,
            rx_head := 0,
            rx_tail := 0 })
  | .deassert => (0, s)

/-- `uart_reg_read` of the PL011-style register window, switching on the
u32 relative offset `address - base_addr`.  A data-register read pops the
RX FIFO when non-empty (clearing `UART_RX_READY` when it drains) and
returns 0 otherwise; all other offsets do not mutate the state. -/
def uart_reg_read (s : UartState) (address : Nat) : Nat × UartState :=
  let rel := u32sub address s.base_addr
  if rel = 0x00 then
    if s.rx_head ≠ s.rx_tail then
      let data := s.rx_buffer s.rx_tail % 256
      let tail2 := (s.rx_tail + 1) % 256
      if s.rx_head = tail2 then
        (data, { s with rx_tail := tail2,
                        status_reg := s.status_reg &&& u32not UART_RX_READY })
      else (data, { s with rx_tail := tail2 })
    else (0, s)
  else if rel = 0x04 then (0, s)
  else if rel = 0x18 then (s.status_reg, s)
  else if rel = 0x20 then (0, s)
  else if rel = 0x24 then (0x006E, s)
  else if rel = 0x28 then (0x0000, s)
  else if rel = 0x2C then (0x0070, s)
  else if rel = 0x30 then (s.ctrl_reg, s)
  else if rel = 0x34 then (0x0000, s)
  else if rel = 0x38 then (0x0000, s)
  else if rel = 0x3C then (0x0000, s)
  else if rel = 0x40 then (0x0000, s)
  else if rel = 0x48 then (s.dma_ctrl_reg, s)
  else if rel = 0x08 then (s.status_reg, s)
  else if rel = 0x0C then (s.ctrl_reg, s)
  else if rel = 0x10 then (s.dma_ctrl_reg, s)
  else (0, s)

/-- The offsets `uart_reg_write` handles (every `case` of its switch). -/
def uartWriteHandledOffsets : List Nat :=
  [0x00, 0x04, 0x18, 0x20, 0x24, 0x28, 0x2C, 0x30, 0x34, 0x38, 0x44, 0x48,
    0x08, 0x0C, 0x10]

/-- `uart_reg_write`, switching on the u32 relative offset.  Returns the
C return code, the new state, and the `(module, irq)` pairs passed to
`trigger_interrupt`.  A write to an offset outside
`uartWriteHandledOffsets` hits the default case and returns -1; writes to
handled read-only or unimplemented offsets (0x04, 0x18, 0x20, 0x24,
0x28, 0x2C, 0x34, 0x38, 0x44) log and return 0 without touching the
state.  `pthread_create` in the control-register case is modelled as
succeeding. -/
def uart_reg_write (s : UartState) (address value : Nat) :
    Int × UartState × List (String × Nat) :=
  let rel := u32sub address s.base_addr
  if rel = 0x00 then
    if s.interrupt_enabled ∧ s.ctrl_reg &&& 1 ≠ 0 then
      (0, { s with tx_reg := value }, [(s.instance_name, 5)])
    else (0, { s with tx_reg := value }, [])
  else if rel = 0x04 then (0, s, [])
  else if rel = 0x18 then (0, s, [])
  else if rel = 0x20 then (0, s, [])
  else if rel = 0x24 then (0, s, [])
  else if rel = 0x28 then (0, s, [])
  else if rel = 0x2C then (0, s, [])
  else if rel = 0x30 then
    if value &&& 1 ≠ 0 ∧ ¬ s.interrupt_enabled then
      (0, { s with ctrl_reg := value,
                   interrupt_enabled := true,
                   simulation_running := true }, [])
    else if value &&& 1 = 0 ∧ s.interrupt_enabled then
      (0, { s with ctrl_reg := value,
                   interrupt_enabled := false,
                   simulation_running := false }, [])
    else (0, { s with ctrl_reg := value }, [])
  else if rel = 0x34 then (0, s, [])
  else if rel = 0x38 then (0, s, [])
  else if rel = 0x44 then (0, s, [])
  else if rel = 0x48 then (0, { s with dma_ctrl_reg := value }, [])
  else if rel = 0x08 then (0, { s with status_reg := value }, [])
  else if rel = 0x0C then (0, { s with ctrl_reg := value }, [])
  else if rel = 0x10 then (0, { s with dma_ctrl_reg := value }, [])
  else (-1, s, [])

/-- Shared helper: a data-register read on an empty RX FIFO returns 0 and
the untouched state. -/
theorem uart_read_dr_empty {s : UartState} {addr : Nat}
    (hrel : u32sub addr s.base_addr = 0) (hempty : s.rx_head = s.rx_tail) :
    uart_reg_read s addr = (0, s) := by
  simp [uart_reg_read, hrel, hempty]

/-- A concrete UART state with an empty RX FIFO (head = tail) used by
witnesses and counterexamples. -/
def uartExState : UartState :=
  { tx_reg := 0x41,
    rx_reg := 0,
    status_reg := UART_TX_READY,
    ctrl_reg := 1,
    dma_ctrl_reg := 0,
    tx_ready := true,
    rx_ready := false,
    rx_buffer := fun _ => 0,
    rx_head := 0,
    rx_tail := 0,
    interrupt_enabled := true,
    simulation_running := true,
    instance_id := 0,
    instance_name := "uart0",
    base_addr := UART_BASE }

/-- C8: for every UART state whose RX FIFO is empty (`rx_head = rx_tail`),
a read of the data register (relative offset 0x00) returns 0 and leaves
the entire plugin state unchanged — FIFO indices, ready flags and all
registers keep their values. -/
theorem C8_uart_empty_fifo_read (s : UartState) (addr : Nat)
    (hrel : u32sub addr s.base_addr = 0) (hempty : s.rx_head = s.rx_tail) :
    uart_reg_read s addr = (0, s) :=
  uart_read_dr_empty hrel hempty

/-- Witness for C8 at a concrete state and address. -/
theorem C8_uart_empty_fifo_read_witness :
    u32sub 0x40002000 uartExState.base_addr = 0 ∧
    uartExState.rx_head = uartExState.rx_tail ∧
    uart_reg_read uartExState 0x40002000 = (0, uartExState) :=
  ⟨by decide, by decide,
    C8_uart_empty_fifo_read uartExState 0x40002000 (by decide) (by decide)⟩

theorem dma_channel_reg_read_zero (off : Nat) :
    dma_channel_reg_read dmaChannelZero off = 0 := by
  unfold dma_channel_reg_read dmaChannelZero
  repeat' split
  all_goals rfl

/-- Shared helper: every `dma_reg_read` of a state whose channels and
global registers are all zero returns 0. -/
theorem dma_reg_read_zero_state (s : DmaState)
    (hch : ∀ i, s.channels i = dmaChannelZero)
    (h1 : s.dma_global_ctrl = 0) (h2 : s.dma_global_status = 0)
    (_h3 : s.dma_int_status = 0) (addr : Nat) :
    dma_reg_read s addr = 0 := by
  unfold dma_reg_read
  split
  · exact h1
  · split
    · exact h2
    · cases hf : dma_find_channel s addr with
      | none => rfl
      | some p =>
        show dma_channel_reg_read (s.channels p.1) p.2 = 0
        rw [hch p.1]
        exact dma_channel_reg_read_zero p.2

/-- C7 counterexample: `uart_reset(Assert)` on a UART whose monitor thread
is running returns success yet leaves `simulation_running` (and
`interrupt_enabled`) true — the UART reset does not stop the plugin's
background worker, contradicting the claim for the UART exemplar. -/
theorem C7_uart_reset_keeps_worker_counterexample :
    uartExState.simulation_running = true ∧
    (uart_reset uartExState .assert).1 = 0 ∧
    (uart_reset uartExState .assert).2.simulation_running = true ∧
    (uart_reset uartExState .assert).2.interrupt_enabled = true :=
  ⟨rfl, rfl, rfl, rfl⟩

/-- C7 (amended): `reset(Assert)` zeroes the register state of both
exemplar plugins, and every register read of the reset DMA instance
returns 0, as do reads of the UART registers its reset zeroes (data
register with drained FIFO, control, DMA-control and the legacy
control/DMA-control offsets); the DMA reset also stops its worker
(`simulation_running := false`), but the UART reset does NOT stop its
worker — `simulation_running` is left as it was (the UART status
register is likewise not zeroed but set to `UART_TX_READY`). -/
theorem C7_reset_assert_behaviour (d : DmaState) (u : UartState) :
    (dma_reset d .assert).1 = 0
    ∧ (dma_reset d .assert).2.simulation_running = false
    ∧ (∀ addr, dma_reg_read (dma_reset d .assert).2 addr = 0)
    ∧ (uart_reset u .assert).1 = 0
    ∧ (uart_reset u .assert).2.tx_reg = 0
    ∧ (uart_reset u .assert).2.rx_reg = 0
    ∧ (uart_reset u .assert).2.ctrl_reg = 0
    ∧ (uart_reset u .assert).2.dma_ctrl_reg = 0
    ∧ (uart_reset u .assert).2.rx_head = 0
    ∧ (uart_reset u .assert).2.rx_tail = 0
    ∧ (uart_reset u .assert).2.status_reg = UART_TX_READY
    ∧ (uart_reset u .assert).2.simulation_running = u.simulation_running
    ∧ (uart_reset u .assert).2.interrupt_enabled = u.interrupt_enabled
    ∧ (∀ addr, u32sub addr u.base_addr = 0x00 →
        uart_reg_read (uart_reset u .assert).2 addr
          = (0, (uart_reset u .assert).2))
    ∧ (∀ addr, u32sub addr u.base_addr = 0x30 →
        (uart_reg_read (uart_reset u .assert).2 addr).1 = 0)
    ∧ (∀ addr, u32sub addr u.base_addr = 0x48 →
        (uart_reg_read (uart_reset u .assert).2 addr).1 = 0)
    ∧ (∀ addr, u32sub addr u.base_addr = 0x0C →
        (uart_reg_read (uart_reset u .assert).2 addr).1 = 0)
    ∧ (∀ addr, u32sub addr u.base_addr = 0x10 →
        (uart_reg_read (uart_reset u .assert).2 addr).1 = 0) := by
  refine ⟨rfl, rfl, ?_, rfl, rfl, rfl, rfl, rfl, rfl, rfl, rfl, rfl, rfl,
    ?_, ?_, ?_, ?_, ?_⟩
  · intro addr
    exact dma_reg_read_zero_state _ (fun _ => rfl) rfl rfl rfl addr
  · intro addr hrel
    exact uart_read_dr_empty hrel rfl
  · intro addr hrel
    simp [uart_reg_read, uart_reset] at hrel ⊢
    simp [hrel]
  · intro addr hrel
    simp [uart_reg_read, uart_reset] at hrel ⊢
    simp [hrel]
  · intro addr hrel
    simp [uart_reg_read, uart_reset] at hrel ⊢
    simp [hrel]
  · intro addr hrel
    simp [uart_reg_read, uart_reset] at hrel ⊢
    simp [hrel]

/-! ## MMIO trap engine (sim_interface.c `segfault_handler`)

The handler is parametrised by the plugin-dispatch function
(`handle_sim_message`), modelled as a state-threading function returning
the C return code, the response result (used only by reads) and the new
plugin state.  The trapped thread's context is its instruction pointer
and RAX (the only general register the decoder uses).  The message-id
counter and the response struct's write-path result are elided: the
handler only tests `handle_sim_message(...) == 0` for writes. -/

/-- `msg_type_t` (only the two types the fault path constructs). -/
inductive MsgType where
  | regRead
  | regWrite
  deriving Repr, DecidableEq

/-- The fields of `sim_message_t` that the fault path fills in. -/
structure SimMsg where
  module : String
  address : Nat
  value : Nat
  type : MsgType
  deriving Repr, DecidableEq

/-- The trapped thread's register context (`uc_mcontext.gregs`):
instruction pointer and RAX. -/
structure FaultCtx where
  rip : Nat
  rax : Nat
  deriving Repr, DecidableEq

/-- How a `segfault_handler` invocation ends: `exit(code)`, or a normal
return with the (possibly updated) context; the flag records whether the
unsupported-instruction fallback message was logged. -/
inductive FaultOutcome where
  | exited (code : Nat)
  | resumed (ctx : FaultCtx) (loggedUnsupported : Bool)
  deriving Repr, DecidableEq

/-- `segfault_handler`: look up the faulting address (unknown address →
`exit(1)`); decode the first instruction byte: 0x8B = 32-bit register
load (on success RAX := result, RIP += 2), 0x89 = register store (value
= RAX as u32, RIP += 2), 0xC7 = immediate store (value = the
little-endian imm32 at RIP+2, RIP += 6); a failing dispatch on any of
these paths is `exit(1)`.  ANY other opcode only logs the unsupported
instruction and returns — no register is written and RIP is not
advanced. -/
def segfault_handler {σ : Type} (dispatch : σ → SimMsg → Int × Nat × σ)
    (mappings : List RegMapping) (insn : List Nat) (ctx : FaultCtx)
    (fault_addr : Nat) (s : σ) : FaultOutcome × σ :=
  match find_register_mapping mappings fault_addr with
  | none => (.exited 1, s)
  | some mapping =>
    let b0 := insn.getD 0 0
    if b0 = 0x8B then
      let r := dispatch s ⟨mapping.module, fault_addr, 0, .regRead⟩
      if r.1 = 0 then (.resumed ⟨ctx.rip + 2, r.2.1⟩ false, r.2.2)
      else (.exited 1, r.2.2)
    else if b0 = 0x89 then
      let r := dispatch s
        ⟨mapping.module, fault_addr, ctx.rax % U32MOD, .regWrite⟩
      if r.1 = 0 then (.resumed ⟨ctx.rip + 2, ctx.rax⟩ false, r.2.2)
      else (.exited 1, r.2.2)
    else if b0 = 0xC7 then
      let imm := insn.getD 2 0 + 256 * insn.getD 3 0 + 65536 * insn.getD 4 0
        + 16777216 * insn.getD 5 0
      let r := dispatch s ⟨mapping.module, fault_addr, imm, .regWrite⟩
      if r.1 = 0 then (.resumed ⟨ctx.rip + 6, ctx.rax⟩ false, r.2.2)
      else (.exited 1, r.2.2)
    else (.resumed ctx true, s)

/-- `handle_sim_message` specialised to a registry holding the one UART
plugin named `pluginName` in state `u`: reads return
`(0, value, state)`; writes return the `uart_reg_write` code (the
triggered IRQs are outside the response and dropped here); a module-name
mismatch is the plugin-not-found error. -/
def uartDispatch (pluginName : String) (u : UartState) (msg : SimMsg) :
    Int × Nat × UartState :=
  if msg.module = pluginName then
    match msg.type with
    | .regRead =>
      ((0 : Int), (uart_reg_read u msg.address).1, (uart_reg_read u msg.address).2)
    | .regWrite =>
      ((uart_reg_write u msg.address msg.value).1, 0,
        (uart_reg_write u msg.address msg.value).2.1)
  else (-1, 0, u)

/-- The mapping table used by the trap-engine examples. -/
def trapExMappings : List RegMapping := [⟨0x40001000, 0x40001050, "uart"⟩]

/-- C1 counterexample: a fault inside a mapped range whose instruction
byte is 0x90 (not one of 0x8B/0x89/0xC7) makes the handler log and
return with the context UNCHANGED: RAX stays 7 (no read-of-0 result is
written) and RIP stays 100 (the instruction pointer is not advanced by
the instruction length), contradicting the claimed fallback. -/
theorem C1_unsupported_opcode_counterexample :
    segfault_handler (fun (s : Unit) _ => ((0 : Int), (0 : Nat), s))
      trapExMappings [0x90] ⟨100, 7⟩ 0x40001000 ()
      = (.resumed ⟨100, 7⟩ true, ())
    ∧ (FaultCtx.mk 100 7).rax ≠ 0
    ∧ (FaultCtx.mk 100 7).rip = 100 := by
  refine ⟨by decide, by decide, rfl⟩

/-- C1 (amended): for every trapped access at a mapped address whose
instruction byte is none of the three supported opcodes (0x8B, 0x89,
0xC7), the handler logs the unsupported instruction and returns with
the trapped context unchanged: it does not dispatch to any plugin, it
writes no value into any register (no read-of-0 result), and it does
not advance the instruction pointer, so the faulting instruction will
simply re-fault. -/
theorem C1_unsupported_opcode_logs_and_resumes (σ : Type)
    (dispatch : σ → SimMsg → Int × Nat × σ) (mappings : List RegMapping)
    (insn : List Nat) (ctx : FaultCtx) (fault_addr : Nat) (s : σ)
    (m : RegMapping)
    (hmap : find_register_mapping mappings fault_addr = some m)
    (h1 : insn.getD 0 0 ≠ 0x8B) (h2 : insn.getD 0 0 ≠ 0x89)
    (h3 : insn.getD 0 0 ≠ 0xC7) :
    segfault_handler dispatch mappings insn ctx fault_addr s
      = (.resumed ctx true, s) := by
  simp only [segfault_handler, hmap]
  rw [if_neg h1, if_neg h2, if_neg h3]

/-- Witness for the amended C1 at a concrete unsupported opcode (0x0F). -/
theorem C1_unsupported_opcode_logs_and_resumes_witness :
    find_register_mapping trapExMappings 0x40001004
      = some ⟨0x40001000, 0x40001050, "uart"⟩
    ∧ [0x0F, 0x1F].getD 0 0 ≠ 0x8B
    ∧ [0x0F, 0x1F].getD 0 0 ≠ 0x89
    ∧ [0x0F, 0x1F].getD 0 0 ≠ 0xC7
    ∧ segfault_handler (fun (s : Unit) _ => ((0 : Int), (0 : Nat), s))
        trapExMappings [0x0F, 0x1F] ⟨200, 3⟩ 0x40001004 ()
        = (.resumed ⟨200, 3⟩ true, ()) :=
  ⟨by decide, by decide, by decide, by decide,
    C1_unsupported_opcode_logs_and_resumes Unit
      (fun (s : Unit) _ => ((0 : Int), (0 : Nat), s)) trapExMappings
      [0x0F, 0x1F] ⟨200, 3⟩ 0x40001004 () ⟨0x40001000, 0x40001050, "uart"⟩
      (by decide) (by decide) (by decide) (by decide)⟩

/-- Shared helper: a `uart_reg_write` whose relative offset is outside
the handled switch cases falls through to the default case, returning -1
with the state untouched and no IRQ triggered. -/
theorem uart_reg_write_unhandled {u : UartState} {addr : Nat} (v : Nat)
    (hrel : u32sub addr u.base_addr ∉ uartWriteHandledOffsets) :
    uart_reg_write u addr v = (-1, u, []) := by
  simp only [uartWriteHandledOffsets, List.mem_cons, List.mem_singleton,
    not_or] at hrel
  obtain ⟨h1, h2, h3, h4, h5, h6, h7, h8, h9, h10, h11, h12, h13, h14, h15⟩ :=
    hrel
  simp [uart_reg_write, h1, h2, h3, h4, h5, h6, h7, h8, h9, h10, h11, h12,
    h13, h14, h15]

/-- The mapping table of the C10 witness: one UART window. -/
def uartTrapMappings : List RegMapping := [⟨0x40002000, 0x40002050, "uart0"⟩]

/-- C10: a driver write trapped to the UART at a relative offset outside
the handled switch cases (e.g. the reserved/read-only offsets 0x14,
0x1C, 0x3C, 0x40) makes `uart_reg_write` return -1 with the state
untouched, and the trap engine, seeing the failed dispatch on the 0x89
store path, terminates the process with `exit(1)`; a write to the
HANDLED read-only flag register at offset 0x18, by contrast, is ignored
with a warning and returns 0. -/
theorem C10_uart_unhandled_write_aborts (u : UartState)
    (mappings : List RegMapping) (insn : List Nat) (ctx : FaultCtx)
    (m : RegMapping) (addr v : Nat)
    (hrel : u32sub addr u.base_addr ∉ uartWriteHandledOffsets)
    (hmap : find_register_mapping mappings addr = some m)
    (hb : insn.getD 0 0 = 0x89) :
    uart_reg_write u addr v = (-1, u, [])
    ∧ segfault_handler (uartDispatch m.module) mappings insn ctx addr u
        = (.exited 1, u)
    ∧ (∀ addr2 v2, u32sub addr2 u.base_addr = 0x18 →
        uart_reg_write u addr2 v2 = (0, u, [])) := by
  refine ⟨uart_reg_write_unhandled v hrel, ?_, ?_⟩
  · simp only [segfault_handler, hmap]
    rw [if_neg (show ¬ insn.getD 0 0 = 0x8B by rw [hb]; decide), if_pos hb]
    have hd : uartDispatch m.module u
        ⟨m.module, addr, ctx.rax % U32MOD, .regWrite⟩ = (-1, 0, u) := by
      simp only [uartDispatch, if_pos rfl]
      rw [uart_reg_write_unhandled (ctx.rax % U32MOD) hrel]
      simp
    rw [hd]
    simp
  · intro addr2 v2 hrel2
    simp [uart_reg_write, hrel2]

/-- Witness for C10: offset 0x14 on a concrete UART instance. -/
theorem C10_uart_unhandled_write_aborts_witness :
    u32sub 0x40002014 uartExState.base_addr ∉ uartWriteHandledOffsets
    ∧ find_register_mapping uartTrapMappings 0x40002014
        = some ⟨0x40002000, 0x40002050, "uart0"⟩
    ∧ [0x89, 0x02].getD 0 0 = 0x89
    ∧ (uart_reg_write uartExState 0x40002014 0x123 = (-1, uartExState, [])
      ∧ segfault_handler
          (uartDispatch (RegMapping.mk 0x40002000 0x40002050 "uart0").module)
          uartTrapMappings [0x89, 0x02] ⟨400, 0x41⟩ 0x40002014 uartExState
          = (.exited 1, uartExState)
      ∧ (∀ addr2 v2, u32sub addr2 uartExState.base_addr = 0x18 →
          uart_reg_write uartExState addr2 v2 = (0, uartExState, []))) :=
  ⟨by decide, by decide, by decide,
    C10_uart_unhandled_write_aborts uartExState uartTrapMappings
      [0x89, 0x02] ⟨400, 0x41⟩ ⟨0x40002000, 0x40002050, "uart0"⟩
      0x40002014 0x123 (by decide) (by decide) (by decide)⟩
